import Mathlib

/-!
Shallow embedding of src/listener.c (an SNI-sniffing TLS front end) and
proofs about its ClientHello decoder, its session state machine, its
alert-record construction, its accept path and its listener setup.

Byte memory is modelled as a total function from absolute offsets to cell
values; every read the decoder performs is recorded in a list of offsets,
so statements about reads past the end of the received buffer can be made.
The C source mixes `int` and `unsigned int`; the conversions the C
arithmetic performs are made explicit (`cchar`, `u32i`, `i32`).
-/

namespace SniProxy

/-- Value of a C memory cell viewed as an unsigned byte. -/
def byte (buf : Nat → Nat) (i : Nat) : Nat := buf i % 256

/-- Source int_2byte_le: p[0] | p[1] << 8. -/
def int_2byte_le (buf : Nat → Nat) (i : Nat) : Nat :=
  byte buf i + 256 * byte buf (i + 1)

/-- Source int_3byte_le: p[0] | p[1] << 8 | p[2] << 16. -/
def int_3byte_le (buf : Nat → Nat) (i : Nat) : Nat :=
  byte buf i + 256 * byte buf (i + 1) + 65536 * byte buf (i + 2)

/-- A signed char fetched into an unsigned int (`tlen = *p` with
`const char *p`): byte values at least 128 sign-extend. -/
def cchar (b : Nat) : Nat :=
  if b % 256 < 128 then b % 256 else 2 ^ 32 - 256 + b % 256

/-- Conversion of a C int value to unsigned int, as C performs it in a
mixed signed/unsigned comparison. -/
def u32i (x : Int) : Nat := (x % (2 ^ 32 : Int)).toNat

/-- Wrap an integer into the range of a 32-bit C int. -/
def i32 (x : Int) : Int := (x + 2 ^ 31) % 2 ^ 32 - 2 ^ 31

/-- Core of parse_extension, reading through `rb`, the memory shifted so
that the extension starts at offset 0.  Mirrors the source line by line:
the 4-byte type/length header, the `tlen > remain` bound, and the SNI
branch.  The source computes `sni = (const struct sni_ext *)pos + 4`,
which advances the pointer by 4 * sizeof(struct sni_ext) = 24 bytes, so
slen is read at offset 24, the name type at 26, hlen at 27 and the host
bytes from 29 (sizeof(struct sni_ext) = 6 with host[1] included).
Returns (return value, hostname assignments, offsets read). -/
def pe_core (rb : Nat → Nat) (remain : Int) : Int × List (List Nat) × List Nat :=
  if remain < 0 then (-1, [], [])
  else if remain < 4 then (0, [], [])
  else
    let ty := int_2byte_le rb 0
    let tlen := int_2byte_le rb 2
    if (tlen : Int) > remain then (-1, [], [0, 1, 2, 3])
    else if ty = 0 then
      if tlen < 6 then (-1, [], [0, 1, 2, 3])
      else if ¬(int_2byte_le rb 24 = tlen - 2) then (-1, [], [0, 1, 2, 3, 24, 25])
      else if ¬(byte rb 26 = 0) then (-1, [], [0, 1, 2, 3, 24, 25, 26])
      else if ¬(int_2byte_le rb 27 = tlen - 3) then (-1, [], [0, 1, 2, 3, 24, 25, 26, 27, 28])
      else
        ((tlen : Int) + 4,
         [(List.range (int_2byte_le rb 27)).map (fun k => byte rb (29 + k))],
         [0, 1, 2, 3, 24, 25, 26, 27, 28, 27, 28] ++
           (List.range (int_2byte_le rb 27)).map (fun k => 29 + k))
    else ((tlen : Int) + 4, [], [0, 1, 2, 3])

/-- parse_extension at an absolute position: run the core on the shifted
memory and shift the recorded read offsets back to absolute ones. -/
def parse_extension (buf : Nat → Nat) (pos : Nat) (remain : Int) :
    Int × List (List Nat) × List Nat :=
  match pe_core (fun k => buf (pos + k)) remain with
  | (r, hs, rds) => (r, hs, rds.map (fun k => pos + k))

/-- The extensions while loop of parse_ssl_greeting:
`while ((ret = parse_extension(ssl, p, remain)) > 0) { p += ret; remain -= ret; }`
with the final `ret == 0` success test.  A continuing iteration has
ret = tlen + 4 at least 4 and remain at least 4, so remain.toNat + 1 units
of fuel always suffice; the fuel argument makes the recursion structural. -/
def ext_walk (buf : Nat → Nat) : Nat → Nat → Int → Bool × List (List Nat) × List Nat
  | 0, _, _ => (false, [], [])
  | Nat.succ fuel, pos, remain =>
    match parse_extension buf pos remain with
    | (ret, hs, rds) =>
      if 0 < ret then
        match ext_walk buf fuel (pos + ret.toNat) (remain - ret) with
        | (ok, hs2, rds2) => (ok, hs ++ hs2, rds ++ rds2)
      else (ret == 0, hs, rds)

/-- The session-id and compression-methods steps of parse_ssl_greeting:
read a 1-byte length (through a signed char), test
`tlen >= remain + 4` (an unsigned comparison), then advance
`p += tlen + 1; remain -= tlen + 1` where `tlen + 1` is computed in
unsigned int arithmetic and remain wraps as a C int. -/
def skip_len8 (buf : Nat → Nat) (p : Nat) (remain : Int) : Option (Nat × Int) :=
  let t := cchar (byte buf p)
  if u32i (remain + 4) ≤ t then none
  else some (p + t + 1, i32 (remain - (((t : Int) + 1) % 2 ^ 32)))

/-- The cipher-suite step of parse_ssl_greeting: a 2-byte length, the
same `tlen >= remain + 4` test, then `p += tlen + 2; remain -= tlen + 2`. -/
def skip_len16 (buf : Nat → Nat) (p : Nat) (remain : Int) : Option (Nat × Int) :=
  let t := int_2byte_le buf p
  if u32i (remain + 4) ≤ t then none
  else some (p + t + 2, i32 (remain - (((t : Int) + 2) % 2 ^ 32)))

/-- Result of a decode: whether the walk ended with ret == 0 (the path
that prints the hostname), the hostname assignments made, and every
offset of the buffer the decode read. -/
structure PRes where
  ok : Bool
  hosts : List (List Nat)
  reads : List Nat
deriving DecidableEq

/-- parse_ssl_greeting from the source: sizeof(struct ssl_header) = 43
(packed: magic[3] + len[2] + type + greeting_len[3] + version[2] +
random[32]); the header checks short-circuit in source order; then the
session-id, cipher-suite and compression-methods skips; then the 2-byte
extensions length is checked (`tlen > remain`, an unsigned comparison)
and discarded, and the extension walk runs over the remaining bytes. -/
def parse_ssl_greeting (buf : Nat → Nat) (len : Nat) : PRes :=
  if len ≤ 43 then ⟨false, [], []⟩
  else if ¬(byte buf 0 = 22 ∧ byte buf 1 = 3 ∧ byte buf 2 = 1) then ⟨false, [], [0, 1, 2]⟩
  else if ¬(byte buf 5 = 1) then ⟨false, [], [0, 1, 2, 5]⟩
  else if ¬(int_2byte_le buf 3 = len - 5) then ⟨false, [], [0, 1, 2, 5, 3, 4]⟩
  else if ¬(int_3byte_le buf 6 = len - 9) then ⟨false, [], [0, 1, 2, 5, 3, 4, 6, 7, 8]⟩
  else
    match skip_len8 buf 43 ((len : Int) - 43) with
    | none => ⟨false, [], [0, 1, 2, 5, 3, 4, 6, 7, 8, 43]⟩
    | some (p1, rem1) =>
      match skip_len16 buf p1 rem1 with
      | none => ⟨false, [], [0, 1, 2, 5, 3, 4, 6, 7, 8, 43, p1, p1 + 1]⟩
      | some (p2, rem2) =>
        match skip_len8 buf p2 rem2 with
        | none => ⟨false, [], [0, 1, 2, 5, 3, 4, 6, 7, 8, 43, p1, p1 + 1, p2]⟩
        | some (p3, rem3) =>
          let t := int_2byte_le buf p3
          if u32i rem3 < t then
            ⟨false, [], [0, 1, 2, 5, 3, 4, 6, 7, 8, 43, p1, p1 + 1, p2, p3, p3 + 1]⟩
          else
            match ext_walk buf ((i32 (rem3 - 2)).toNat + 1) (p3 + 2) (i32 (rem3 - 2)) with
            | (ok, hs, rds) =>
              ⟨ok, hs, [0, 1, 2, 5, 3, 4, 6, 7, 8, 43, p1, p1 + 1, p2, p3, p3 + 1] ++ rds⟩

/-! The struct ssl_alert written by alert_cb, one field per byte of the
packed 7-byte record. -/

structure ssl_alert where
  type : Nat
  version0 : Nat
  version1 : Nat
  len0 : Nat
  len1 : Nat
  level : Nat
  description : Nat
deriving DecidableEq

/-- The field assignments alert_cb performs on the stack-allocated alert
before write(fd, &alert, sizeof(alert)).  The source assigns
`alert.version[0] = 0x03;` and then `alert.version[0] = 0x01;` (the same
cell twice), and assigns only `alert.len[1] = 2`; version[1] and len[0]
keep whatever the uninitialised stack held, here the fields of `a`. -/
def alert_cb_record (a : ssl_alert) : ssl_alert :=
  ⟨0x15, 0x01, a.version1, a.len0, 2, 2, 0x40⟩

/-! Session state machine.  The source states are ssl_state_init (the
session is registered for read readiness, spec state AwaitingHello),
ssl_state_alert (write watcher armed, alert not yet written),
ssl_state_alert_sent (alert written once, watcher still armed); closed
is the state after terminate_session has run (watcher stopped, fd
closed, hostname freed, session freed — no further callbacks). -/

inductive SState
  | init
  | alert
  | alertSent
  | closed
deriving DecidableEq

/-- Observable session state: control state, the list of hostname buffers
assigned so far by the decoder, and counters for the alert write(), the
close(fd) calls and the free(hostname) calls, plus whether an I/O watcher
is registered and whether the close came from the read path. -/
structure Sess where
  state : SState
  hostnames : List (List Nat)
  writes : Nat
  closes : Nat
  frees : Nat
  ioActive : Bool
  closedByRead : Bool
deriving DecidableEq

/-- A session as accept_cb builds it: zeroed (xmalloc0), registered for
read readiness in ssl_state_init. -/
def sess0 : Sess := ⟨SState.init, [], 0, 0, 0, true, false⟩

/-- terminate_session: ev_io_stop, close(fd), free(hostname), free(ssl).
The byRead flag records which call site terminated (instrumentation
only). -/
def terminate_session (s : Sess) (byRead : Bool) : Sess :=
  ⟨SState.closed, s.hostnames, s.writes, s.closes + 1, s.frees + 1, false, byRead⟩

/-- Readiness events the reactor can deliver: a read callback together
with the memory the 8 KiB stack buffer holds and the value read()
returned, or a write-readiness callback. -/
inductive Ev
  | readRet (buf : Nat → Nat) (r : Int)
  | writeReady

/-- One delivered callback.  greet_cb fires only while the read watcher
is armed (state init); read() into an 8192-byte buffer returns at most
8192; r <= 0 runs terminate_session, r > 0 runs parse_ssl_greeting
(which stops the read watcher and always ends in send_alert, arming the
write watcher).  alert_cb fires only while the write watcher is armed:
in ssl_state_alert it fills the record, moves to ssl_state_alert_sent
and performs the single write; in any other state it terminates. -/
def step (s : Sess) (e : Ev) : Option Sess :=
  match e with
  | Ev.readRet buf r =>
    if s.state = SState.init then
      if r ≤ 8192 then
        if r ≤ 0 then some (terminate_session s true)
        else
          some ⟨SState.alert, s.hostnames ++ (parse_ssl_greeting buf r.toNat).hosts,
                s.writes, s.closes, s.frees, true, s.closedByRead⟩
      else none
    else none
  | Ev.writeReady =>
    if s.state = SState.alert then
      some ⟨SState.alertSent, s.hostnames, s.writes + 1, s.closes, s.frees,
            s.ioActive, s.closedByRead⟩
    else if s.state = SState.alertSent then
      some (terminate_session s s.closedByRead)
    else none

/-- A sequence of delivered callbacks; none means some event in the list
could not have been delivered. -/
def run : Sess → List Ev → Option Sess
  | s, [] => some s
  | s, e :: es =>
    match step s e with
    | none => none
    | some s2 => run s2 es

/-! Accept path. -/

/-- Outcome of the accept(2) call in accept_from_socket. -/
inductive AcceptRes
  | wouldBlock
  | intr
  | genuineFail
  | conn (nfd : Nat)

/-- Environment for one accept_from_socket call: the accept outcome and
whether each of the two fcntl calls fails. -/
structure AcceptEnv where
  res : AcceptRes
  setflFail : Bool
  setfdFail : Bool

/-- Observable effects of accept_from_socket. -/
structure AccOut where
  ret : Int
  nonblockTarget : Option Nat
  cloexecTarget : Option Nat
  closedFds : List Nat
  logs : List String
deriving DecidableEq

/-- accept_from_socket from the source.  EAGAIN/EINTR/EWOULDBLOCK return
0; any other accept failure returns -1.  On success the source applies
the O_NONBLOCK fcntl to `sock` — the listening socket — and only
FD_CLOEXEC to the new descriptor `nfd`; a failing O_NONBLOCK fcntl
closes the listening socket and then nfd; a failing FD_CLOEXEC fcntl
logs and closes nfd. -/
def accept_from_socket (sock : Nat) (env : AcceptEnv) : AccOut :=
  match env.res with
  | AcceptRes.wouldBlock => ⟨0, none, none, [], []⟩
  | AcceptRes.intr => ⟨0, none, none, [], []⟩
  | AcceptRes.genuineFail => ⟨-1, none, none, [], []⟩
  | AcceptRes.conn nfd =>
    if env.setflFail then ⟨-1, some sock, none, [sock, nfd], []⟩
    else if env.setfdFail then ⟨-1, some sock, some nfd, [nfd], ["fcntl failed"]⟩
    else ⟨(nfd : Int), some sock, some nfd, [], []⟩

/-- Observable effects of one accept_cb invocation. -/
structure CbOut where
  sessions : List Nat
  logs : List String
  watcherStopped : Bool
deriving DecidableEq

/-- accept_cb from the source: only a strictly positive return spawns a
session; every other return — including the 0 that accept_from_socket
uses for would-block/interrupted — takes the else branch and prints
"accept failed".  The listener watcher is never stopped. -/
def accept_cb (sock : Nat) (env : AcceptEnv) : CbOut :=
  let a := accept_from_socket sock env
  if 0 < a.ret then ⟨[a.ret.toNat], a.logs, false⟩
  else ⟨[], a.logs ++ ["accept failed"], false⟩

/-! Listener setup. -/

/-- Where listen_on fails for one resolved address, if anywhere. -/
inductive LStep
  | sockFail
  | cloexecFail
  | nonblockFail
  | bindFail
  | listenFail
  | lsOk

/-- One resolved address: the descriptor socket(2) would return for it
and the step at which listen_on fails. -/
structure Addr where
  fd : Nat
  outcome : LStep

/-- listen_on from the source: socket, FD_CLOEXEC, SO_REUSEADDR,
O_NONBLOCK, bind, listen; every failure after socket() closes the
socket just opened and returns -1.  Returns (result, fds opened,
fds closed). -/
def listen_on (a : Addr) : Option Nat × List Nat × List Nat :=
  match a.outcome with
  | LStep.sockFail => (none, [], [])
  | LStep.cloexecFail => (none, [a.fd], [a.fd])
  | LStep.nonblockFail => (none, [a.fd], [a.fd])
  | LStep.bindFail => (none, [a.fd], [a.fd])
  | LStep.listenFail => (none, [a.fd], [a.fd])
  | LStep.lsOk => (some a.fd, [a.fd], [])

/-- Observable outcome of start_listen over the resolved address list. -/
structure SLOut where
  ok : Bool
  opened : List Nat
  closed : List Nat
deriving DecidableEq

/-- start_listen from the source: walk the getaddrinfo result list; a
listen_on failure returns false at once — nothing closes the sockets
opened and registered for the earlier addresses of the same call. -/
def start_listen : List Addr → SLOut
  | [] => ⟨true, [], []⟩
  | a :: rest =>
    match listen_on a with
    | (none, op, cl) => ⟨false, op, cl⟩
    | (some _, op, cl) =>
      match start_listen rest with
      | ⟨ok, ops, cls⟩ => ⟨ok, op ++ ops, cl ++ cls⟩

/-! Concrete buffers used to settle the claims.  Every buffer is given as
a byte list; memory past the list is 0 (its values are never relevant —
only the offsets of reads there are).  The 43-byte record header is
magic 16 03 01, little-endian record length = len - 5 at offsets 3..4,
handshake type 1 at offset 5, little-endian handshake length = len - 9
at offsets 6..8, then version and random (34 zero bytes here). -/

/-- All-zero memory. -/
def bufZ : Nat → Nat := fun _ => 0

/-- B1: a 44-byte buffer whose session-id length byte (offset 43) claims
4 bytes while 0 bytes remain after it.  The source check
`tlen >= remain + 4` (remain = 1) accepts it. -/
def B1list : List Nat :=
  [22, 3, 1, 39, 0, 1, 35, 0, 0] ++ List.replicate 34 0 ++ [4]

/-- B1 as memory. -/
def B1fn : Nat → Nat := fun i => B1list.getD i 0

/-- B2: a 75-byte ClientHello with empty session id, cipher list and
compression list, declared extensions length 26, and one server_name
extension of declared payload length 14 laid out exactly as the claim
describes: payload offset 0 (buffer offset 53) holds 12 = 14 - 2,
payload offset 2 holds the name type 0, payload offset 3 holds
11 = 14 - 3, and the 11 host-name bytes "example.com" follow. -/
def B2list : List Nat :=
  [22, 3, 1, 70, 0, 1, 66, 0, 0] ++ List.replicate 34 0 ++
  [0] ++ [0, 0] ++ [0] ++ [26, 0] ++
  [0, 0, 14, 0] ++ [12, 0, 0, 11, 0] ++
  [101, 120, 97, 109, 112, 108, 101, 46, 99, 111, 109] ++ List.replicate 6 0

/-- B2 as memory. -/
def B2fn : Nat → Nat := fun i => B2list.getD i 0

/-- B3: an 81-byte ClientHello whose declared extensions length (offsets
47..48) is 0 although 32 bytes remain; the trailing bytes hold a
server_name extension (declared length 6) whose fields sit where the
source reads them (payload offsets 20/22/23, buffer offsets 73..77) with
host bytes 97 98 99 at offsets 78..80, followed by a type-1 extension
header at 69..72 consuming the rest of the walk. -/
def B3list : List Nat :=
  [22, 3, 1, 76, 0, 1, 72, 0, 0] ++ List.replicate 34 0 ++
  [0, 0, 0, 0] ++ [0, 0] ++
  [0, 0, 6, 0] ++ List.replicate 6 0 ++ [1, 0, 18, 0] ++ List.replicate 10 0 ++
  [4, 0, 0, 3, 0] ++ [97, 98, 99]

/-- B3 as memory. -/
def B3fn : Nat → Nat := fun i => B3list.getD i 0

/-- B3 with every byte below the extension walk start (offset 49)
replaced, used to witness that the walk never reads there. -/
def B3x : Nat → Nat := fun i => if i < 49 then 7 else B3fn i

/-- B4: a 91-byte ClientHello whose extensions region holds two
server_name extensions (at offsets 49 and 59, declared length 6 each)
that both pass the source checks — the first reads its fields at
73..77 and host 97 98 99 at 78..80, the second at 83..87 and host
100 101 102 at 88..90 — followed by a type-1 extension header at
69..72 consuming the rest of the walk. -/
def B4list : List Nat :=
  [22, 3, 1, 86, 0, 1, 82, 0, 0] ++ List.replicate 34 0 ++
  [0, 0, 0, 0] ++ [42, 0] ++
  [0, 0, 6, 0] ++ List.replicate 6 0 ++ [0, 0, 6, 0] ++ List.replicate 6 0 ++
  [1, 0, 18, 0] ++ [4, 0, 0, 3, 0] ++ [97, 98, 99] ++ [0, 0] ++
  [4, 0, 0, 3, 0] ++ [100, 101, 102]

/-- B4 as memory. -/
def B4fn : Nat → Nat := fun i => B4list.getD i 0

/-- Alert-struct stack garbage, first sample. -/
def garbage1 : ssl_alert := ⟨0, 0, 0xAA, 7, 0, 0, 0⟩

/-- Alert-struct stack garbage, second sample. -/
def garbage2 : ssl_alert := ⟨0, 0, 0, 0, 0, 0, 0⟩

/-- Callback sequence: one read delivering 5 bytes, then two write
readiness events. -/
def trace4 : List Ev := [Ev.readRet bufZ 5, Ev.writeReady, Ev.writeReady]

/-- The state trace4 ends in. -/
def fin4 : Sess := ⟨SState.closed, [], 1, 1, 1, false, false⟩

/-- The state a zero read from sess0 ends in. -/
def fin5 : Sess := ⟨SState.closed, [], 0, 1, 1, false, true⟩

/-- A session in ssl_state_alert holding one assigned hostname. -/
def sessA : Sess := ⟨SState.alert, [[104]], 0, 0, 0, true, false⟩

/-- The state one write-readiness event moves sessA to. -/
def sessA2 : Sess := ⟨SState.alertSent, [[104]], 1, 0, 0, true, false⟩

/-! Helper lemmas. -/

/-- parse_extension reads memory only at offsets at or above its
position, so memories agreeing from the position on parse identically. -/
theorem parse_extension_congr (buf buf2 : Nat → Nat) (pos : Nat) (remain : Int)
    (h : ∀ i, pos ≤ i → buf i = buf2 i) :
    parse_extension buf pos remain = parse_extension buf2 pos remain := by
  have hf : (fun k => buf (pos + k)) = (fun k => buf2 (pos + k)) :=
    funext fun k => h (pos + k) (Nat.le_add_right _ _)
  unfold parse_extension
  rw [hf]

/-- The extension walk reads memory only at offsets at or above its
starting position. -/
theorem ext_walk_congr :
    ∀ (fuel : Nat) (buf buf2 : Nat → Nat) (pos : Nat) (remain : Int),
      (∀ i, pos ≤ i → buf i = buf2 i) →
      ext_walk buf fuel pos remain = ext_walk buf2 fuel pos remain := by
  intro fuel
  induction fuel with
  | zero => intro buf buf2 pos remain _; rfl
  | succ n ih =>
    intro buf buf2 pos remain h
    show ext_walk buf (n + 1) pos remain = ext_walk buf2 (n + 1) pos remain
    unfold ext_walk
    rw [parse_extension_congr buf buf2 pos remain h]
    rcases parse_extension buf2 pos remain with ⟨ret, hs, rds⟩
    by_cases hr : 0 < ret
    · simp only [if_pos hr]
      rw [ih buf buf2 (pos + ret.toNat) (remain - ret)
        (fun i hi => h i (le_trans (Nat.le_add_right _ _) hi))]
    · simp only [if_neg hr]

/-- State invariant of the session machine: the alert is written exactly
in the transition from ssl_state_alert to ssl_state_alert_sent, the
resources are released exactly in the transition to closed, and the
hostname list is empty until the decode runs. -/
def SessInv (s : Sess) : Prop :=
  (s.state = SState.init →
    s.writes = 0 ∧ s.closes = 0 ∧ s.frees = 0 ∧ s.closedByRead = false ∧
    s.hostnames = [] ∧ s.ioActive = true) ∧
  (s.state = SState.alert →
    s.writes = 0 ∧ s.closes = 0 ∧ s.frees = 0 ∧ s.closedByRead = false ∧
    s.ioActive = true) ∧
  (s.state = SState.alertSent →
    s.writes = 1 ∧ s.closes = 0 ∧ s.frees = 0 ∧ s.closedByRead = false ∧
    s.ioActive = true) ∧
  (s.state = SState.closed →
    s.closes = 1 ∧ s.frees = 1 ∧ s.ioActive = false ∧
    (s.closedByRead = true → s.writes = 0) ∧
    (s.closedByRead = false → s.writes = 1))

/-- The invariant holds at the freshly accepted session. -/
theorem sessInv_sess0 : SessInv sess0 := by
  unfold SessInv
  decide

/-- The invariant is preserved by every delivered callback. -/
theorem sessInv_step (s s2 : Sess) (e : Ev) (hs : SessInv s)
    (h : step s e = some s2) : SessInv s2 := by
  obtain ⟨h1, h2, h3, h4⟩ := hs
  cases e with
  | readRet buf r =>
    simp only [step] at h
    by_cases hst : s.state = SState.init
    · rw [if_pos hst] at h
      obtain ⟨hw, hc, hf, hcbr, hhn, hio⟩ := h1 hst
      by_cases h8 : r ≤ 8192
      · rw [if_pos h8] at h
        by_cases h0 : r ≤ 0
        · rw [if_pos h0] at h
          injection h with h
          subst h
          simp [SessInv, terminate_session, hw, hc, hf]
        · rw [if_neg h0] at h
          injection h with h
          subst h
          simp [SessInv, hw, hc, hf, hcbr]
      · rw [if_neg h8] at h
        exact absurd h (by simp)
    · rw [if_neg hst] at h
      exact absurd h (by simp)
  | writeReady =>
    simp only [step] at h
    by_cases ha : s.state = SState.alert
    · rw [if_pos ha] at h
      obtain ⟨hw, hc, hf, hcbr, hio⟩ := h2 ha
      injection h with h
      subst h
      simp [SessInv, hw, hc, hf, hcbr, hio]
    · rw [if_neg ha] at h
      by_cases hb : s.state = SState.alertSent
      · rw [if_pos hb] at h
        obtain ⟨hw, hc, hf, hcbr, hio⟩ := h3 hb
        injection h with h
        subst h
        simp [SessInv, terminate_session, hw, hc, hf, hcbr]
      · rw [if_neg hb] at h
        exact absurd h (by simp)

/-- The invariant holds in every state a callback sequence reaches. -/
theorem sessInv_run :
    ∀ (evs : List Ev) (s s2 : Sess), run s evs = some s2 → SessInv s → SessInv s2 := by
  intro evs
  induction evs with
  | nil =>
    intro s s2 h hs
    simp only [run] at h
    injection h with h
    exact h ▸ hs
  | cons e es ih =>
    intro s s2 h hs
    simp only [run] at h
    cases hstep : step s e with
    | none => rw [hstep] at h; exact absurd h (by simp)
    | some s1 =>
      rw [hstep] at h
      exact ih s1 s2 h (sessInv_step s s1 e hs hstep)

/-! Claim theorems. -/

/-- C1: the claim states that whenever a length field claims more bytes
than remain, the decoder fails and never reads past the buffer end.  The
code violates the no-read-past-the-end part: B1 is a 44-byte buffer whose
session-id length byte (offset 43) claims 4 bytes with 0 remaining; the
source bound `tlen >= remain + 4` accepts it, and the cipher-suite stage
then reads offsets 48 and 49 — past the end of the 44-byte buffer —
before the decode fails. -/
theorem c1_oob_read_on_overclaim :
    byte B1fn 43 = 4 ∧
    (parse_ssl_greeting B1fn 44).ok = false ∧
    48 ∈ (parse_ssl_greeting B1fn 44).reads ∧
    49 ∈ (parse_ssl_greeting B1fn 44).reads := by decide

/-- C2: the claim states that a well-formed ClientHello whose
server_name extension is valid (list length = payload length - 2 at
payload offset 0, name type 0 at offset 2, host length = payload
length - 3 at offset 3, host bytes following) decodes to that host name;
in particular "example.com" is returned.  B2 is exactly such a hello
(the first four conjuncts exhibit the required payload fields and the
host bytes "example.com"), yet the decoder fails and assigns no
hostname: the source computes the sni_ext pointer as
`(const struct sni_ext *)pos + 4`, 24 bytes past the extension header
instead of 4, and so validates bytes that are not the SNI fields. -/
theorem c2_valid_sni_rejected :
    int_2byte_le B2fn 53 = 14 - 2 ∧
    byte B2fn 55 = 0 ∧
    int_2byte_le B2fn 56 = 14 - 3 ∧
    (List.range 11).map (fun k => byte B2fn (58 + k)) =
      [101, 120, 97, 109, 112, 108, 101, 46, 99, 111, 109] ∧
    (parse_ssl_greeting B2fn 75).ok = false ∧
    (parse_ssl_greeting B2fn 75).hosts = [] := by decide

/-- C3: the claim states the alert record is a fixed 7-byte value with
the 2-byte version field set and the 2-byte length field equal to 2.
The code assigns version[0] twice (0x03 then 0x01) and assigns only
len[1] = 2, so version[1] and len[0] keep uninitialised stack content:
with garbage1 on the stack the emitted record has len bytes (7, 2) —
equal to 2 under neither byte order — a leftover version[1], and the
record differs between two garbage samples, hence is not fixed.  The
content type, level and description bytes are set as claimed. -/
theorem c3_alert_bytes_uninitialised :
    (alert_cb_record garbage1).type = 0x15 ∧
    (alert_cb_record garbage1).level = 2 ∧
    (alert_cb_record garbage1).description = 0x40 ∧
    (alert_cb_record garbage1).version0 = 0x01 ∧
    (alert_cb_record garbage1).version1 = 0xAA ∧
    (alert_cb_record garbage1).len0 = 7 ∧
    ¬((alert_cb_record garbage1).len0 + 256 * (alert_cb_record garbage1).len1 = 2) ∧
    ¬(256 * (alert_cb_record garbage1).len0 + (alert_cb_record garbage1).len1 = 2) ∧
    ¬(alert_cb_record garbage1 = alert_cb_record garbage2) := by decide

/-- C4: along every delivered callback sequence a session performs at
most one alert write, and a session that reaches the closed state has
performed exactly one alert write — zero when it was closed by the
zero/negative-read path. -/
theorem c4_exactly_one_alert_write (evs : List Ev) (s2 : Sess)
    (h : run sess0 evs = some s2) :
    s2.writes ≤ 1 ∧
    (s2.state = SState.closed →
      (s2.closedByRead = true → s2.writes = 0) ∧
      (s2.closedByRead = false → s2.writes = 1)) := by
  have hi := sessInv_run evs sess0 s2 h sessInv_sess0
  obtain ⟨h1, h2, h3, h4⟩ := hi
  constructor
  · cases hst : s2.state with
    | init => rw [(h1 hst).1]; omega
    | alert => rw [(h2 hst).1]; omega
    | alertSent => rw [(h3 hst).1]
    | closed =>
      obtain ⟨-, -, -, hA, hB⟩ := h4 hst
      cases hcbr : s2.closedByRead with
      | true => rw [hA hcbr]; omega
      | false => rw [hB hcbr]
  · intro hcl
    obtain ⟨-, -, -, hA, hB⟩ := h4 hcl
    exact ⟨hA, hB⟩

/-- C4 witness: the sequence read(5 bytes), write readiness, write
readiness closes the session after exactly one alert write. -/
theorem c4_exactly_one_alert_write_witness :
    run sess0 trace4 = some fin4 ∧ fin4.writes ≤ 1 ∧
    (fin4.state = SState.closed →
      (fin4.closedByRead = true → fin4.writes = 0) ∧
      (fin4.closedByRead = false → fin4.writes = 1)) := by
  have h : run sess0 trace4 = some fin4 := by decide
  exact ⟨h, (c4_exactly_one_alert_write trace4 fin4 h).1,
         (c4_exactly_one_alert_write trace4 fin4 h).2⟩

/-- C5: a read callback whose read returns 0 or a negative value moves
any reachable session that is awaiting its hello directly to the closed
state with no alert written, the watcher stopped, the socket closed
exactly once and the hostname buffer released exactly once — also here,
where no hostname was ever assigned. -/
theorem c5_zero_read_closes (evs : List Ev) (s : Sess) (buf : Nat → Nat)
    (r : Int) (s2 : Sess) (hreach : run sess0 evs = some s)
    (hst : s.state = SState.init) (hr : r ≤ 0)
    (h : step s (Ev.readRet buf r) = some s2) :
    s2.state = SState.closed ∧ s2.writes = 0 ∧ s2.closes = 1 ∧
    s2.frees = 1 ∧ s2.ioActive = false ∧ s2.hostnames = [] := by
  have hi := sessInv_run evs sess0 s hreach sessInv_sess0
  obtain ⟨hw, hc, hf, hcbr, hhn, hio⟩ := hi.1 hst
  simp only [step] at h
  rw [if_pos hst, if_pos (show r ≤ 8192 by omega), if_pos hr] at h
  injection h with h
  subst h
  exact ⟨rfl, hw, by rw [terminate_session, hc], by rw [terminate_session, hf], rfl, hhn⟩

/-- C5 witness: a zero read on a fresh session. -/
theorem c5_zero_read_closes_witness :
    step sess0 (Ev.readRet bufZ 0) = some fin5 ∧
    fin5.state = SState.closed ∧ fin5.writes = 0 ∧ fin5.closes = 1 ∧
    fin5.frees = 1 ∧ fin5.ioActive = false ∧ fin5.hostnames = [] := by
  have h : step sess0 (Ev.readRet bufZ 0) = some fin5 := by decide
  exact ⟨h, c5_zero_read_closes [] sess0 bufZ 0 fin5 (by decide) (by decide) (by decide) h⟩

/-- C6: the claim states that a failed start_listen closes every socket
opened for an earlier address of the same call.  With two resolved
addresses where the first succeeds (socket 3) and the second fails at
bind (socket 4), start_listen reports failure, socket 4 is closed
inside listen_on, but socket 3 stays open: nothing on the failure path
closes it. -/
theorem c6_failed_listen_leaks_earlier_socket :
    (start_listen [⟨3, LStep.lsOk⟩, ⟨4, LStep.bindFail⟩]).ok = false ∧
    3 ∈ (start_listen [⟨3, LStep.lsOk⟩, ⟨4, LStep.bindFail⟩]).opened ∧
    ¬(3 ∈ (start_listen [⟨3, LStep.lsOk⟩, ⟨4, LStep.bindFail⟩]).closed) := by decide

/-- C7: the claim states that a would-block/interrupted accept is a
silent no-op with nothing logged.  accept_from_socket does return 0 for
that case and no session is constructed and the watcher stays armed,
but accept_cb treats every non-positive return alike: its else branch
logs "accept failed" even for the would-block result. -/
theorem c7_wouldblock_accept_is_logged :
    (accept_cb 5 ⟨AcceptRes.wouldBlock, false, false⟩).sessions = [] ∧
    (accept_cb 5 ⟨AcceptRes.wouldBlock, false, false⟩).watcherStopped = false ∧
    (accept_from_socket 5 ⟨AcceptRes.wouldBlock, false, false⟩).ret = 0 ∧
    (accept_cb 5 ⟨AcceptRes.wouldBlock, false, false⟩).logs = ["accept failed"] ∧
    ¬((accept_cb 5 ⟨AcceptRes.wouldBlock, false, false⟩).logs = []) := by decide

/-- C8: the claim states the newly accepted descriptor — not the
listening socket — is marked close-on-exec and set non-blocking.  On a
successful accept (listening socket 5, new descriptor 9) the source
applies FD_CLOEXEC to 9 as claimed, but applies the O_NONBLOCK fcntl to
the listening socket 5, not to the accepted descriptor 9. -/
theorem c8_nonblock_applied_to_listening_socket :
    (accept_from_socket 5 ⟨AcceptRes.conn 9, false, false⟩).ret = 9 ∧
    (accept_from_socket 5 ⟨AcceptRes.conn 9, false, false⟩).cloexecTarget = some 9 ∧
    (accept_from_socket 5 ⟨AcceptRes.conn 9, false, false⟩).nonblockTarget = some 5 ∧
    ¬((accept_from_socket 5 ⟨AcceptRes.conn 9, false, false⟩).nonblockTarget = some 9) := by decide

/-- C9 counterexample: the claim states the hostname is assigned at most
once over a session's lifetime, also for buffers with more than one
server_name extension.  Delivering B4 — whose extensions region holds
two server_name extensions that both pass the source checks — to a fresh
session assigns the hostname twice (and leaks the first buffer). -/
theorem c9_hostname_assigned_twice :
    (run sess0 [Ev.readRet B4fn 91]).map (fun s => s.hostnames) =
      some [[97, 98, 99], [100, 101, 102]] ∧
    (run sess0 [Ev.readRet B4fn 91]).map (fun s => s.hostnames.length) = some 2 := by decide

/-- C9 amended: the hostname may be assigned more than once — once per
server_name extension that passes the checks — but every assignment
happens in the decode that moves the session out of AwaitingHello: the
hostname list is empty in every reachable AwaitingHello state, and no
callback delivered in any other state changes it. -/
theorem c9_assignment_only_in_awaiting_hello :
    (∀ (evs : List Ev) (s2 : Sess), run sess0 evs = some s2 →
      s2.state = SState.init → s2.hostnames = []) ∧
    (∀ (s : Sess) (e : Ev) (s2 : Sess), step s e = some s2 →
      ¬(s.state = SState.init) → s2.hostnames = s.hostnames) := by
  constructor
  · intro evs s2 h hst
    exact ((sessInv_run evs sess0 s2 h sessInv_sess0).1 hst).2.2.2.2.1
  · intro s e s2 h hst
    cases e with
    | readRet buf r =>
      simp only [step] at h
      rw [if_neg hst] at h
      exact absurd h (by simp)
    | writeReady =>
      simp only [step] at h
      by_cases ha : s.state = SState.alert
      · rw [if_pos ha] at h
        injection h with h
        subst h
        rfl
      · rw [if_neg ha] at h
        by_cases hb : s.state = SState.alertSent
        · rw [if_pos hb] at h
          injection h with h
          subst h
          rfl
        · rw [if_neg hb] at h
          exact absurd h (by simp)

/-- C9 amended witness: a write-readiness callback on a session that has
left AwaitingHello does not change the hostname list. -/
theorem c9_assignment_only_in_awaiting_hello_witness :
    step sessA Ev.writeReady = some sessA2 ∧ sessA2.hostnames = sessA.hostnames :=
  ⟨by decide,
   c9_assignment_only_in_awaiting_hello.2 sessA Ev.writeReady sessA2 (by decide) (by decide)⟩

/-- C10: the extensions walk is bounded by the bytes remaining in the
buffer, not by the declared extensions-block length: the walk never
reads the two declared-length bytes or anything before its starting
position (first conjunct, so after its bound check the declared value
cannot influence the walk), and on B3 — declared extensions length 0
with 32 bytes remaining — the trailing bytes are parsed as extension
triples and the server_name extension found there sets the hostname,
with the decode succeeding. -/
theorem c10_walk_ignores_declared_length :
    (∀ (buf buf2 : Nat → Nat) (fuel pos : Nat) (remain : Int),
      (∀ i, pos ≤ i → buf i = buf2 i) →
      ext_walk buf fuel pos remain = ext_walk buf2 fuel pos remain) ∧
    int_2byte_le B3fn 47 = 0 ∧
    (parse_ssl_greeting B3fn 81).ok = true ∧
    (parse_ssl_greeting B3fn 81).hosts = [[97, 98, 99]] := by
  refine ⟨fun buf buf2 fuel pos remain h => ext_walk_congr fuel buf buf2 pos remain h,
    by decide, by decide, by decide⟩

/-- C10 witness: the walk over B3 from offset 49 equals the walk over a
memory whose bytes below offset 49 are all different. -/
theorem c10_walk_ignores_declared_length_witness :
    ext_walk B3fn 33 49 32 = ext_walk B3x 33 49 32 :=
  c10_walk_ignores_declared_length.1 B3fn B3x 33 49 32 (fun i hi => by
    unfold B3x
    rw [if_neg (by omega)])

end SniProxy
